import Mathlib

/-!
Verification development for the vulcan ECS deployment orchestrator.

Shallow embedding of the repository's JavaScript sources:
  * `src/utils/obj.js`      — `overrideObject`, `isStringNull`
  * `src/lib/vulcan.js` and its sibling variant — `isLoadBalancerPresent`,
    `getTargetGroupsWithBlueGreenEnabled`, `findBlueTaskSet`, `getTaskDefinition`,
    `getTaskSet`, `createTaskDefinition`, `createTaskSet`, `getTargetGroupARN`
  * `src/utils/aws.js`      — the parameter objects built for the ELBv2/ECS calls,
    in particular `divideListenerRule`
  * `src/cmd/deploy.js`     — the deploy workflow (state record life cycle)
  * `src/cmd/bootstrap.js`  — the blue-task-set discovery/promotion switch
  * the `rollback` command  — the cleanup sequence over a persisted state record

External collaborators (AWS ECS / ELBv2 calls, JSON file reads) are modelled as
oracle parameters returning `Except`; the side-effecting calls the workflows issue
are recorded in traces so ordering facts can be stated.  JavaScript `undefined` and
`null` are both rendered as `Option.none` unless the code distinguishes them;
dereferencing `null`/`undefined` (a JS `TypeError`) is the error `VErr.nullDeref`.
-/

namespace Vulcan

/-- JavaScript values as far as the merge logic of `src/utils/obj.js` observes
them: absence of a key (`undefined`), `null`, booleans, numbers (integers; the
code never produces fractional weights in these paths) and strings. -/
inductive JVal where
  | undef : JVal
  | null : JVal
  | bool : Bool → JVal
  | num : Int → JVal
  | str : String → JVal
deriving DecidableEq, Repr

/-- JavaScript truthiness on `JVal`: `undefined`, `null`, `false`, `0` and `""`
are falsy, everything else is truthy. -/
def JVal.truthy : JVal → Bool
  | .undef => false
  | .null => false
  | .bool b => b
  | .num n => n != 0
  | .str s => s != ""

/-- Reading `o[key]` where `o` may be JS `null`: a key lookup on a missing
object yields `undefined` only after the code's explicit `o != null` guard, so
the guard is modelled by `truthyField` below and this is the raw value. -/
def fieldVal (o : Option (String → JVal)) (k : String) : JVal :=
  match o with
  | none => JVal.undef
  | some f => f k

/-- The combined guard the source writes as `o != null && o[key]`. -/
def truthyField (o : Option (String → JVal)) (k : String) : Bool :=
  match o with
  | none => false
  | some f => (f k).truthy

/-- One iteration of the `for (const key in finalObject)` loop of
`overrideObject` (src/utils/obj.js:14-24): if the override value is truthy it
wins, else a truthy base value wins, else the entry is left unchanged. -/
def overrideStep (obj override : Option (String → JVal)) (acc : String → JVal)
    (key : String) : String → JVal :=
  if truthyField override key then
    fun k => if k = key then fieldVal override key else acc k
  else if truthyField obj key then
    fun k => if k = key then fieldVal obj key else acc k
  else acc

/-- `overrideObject(template, obj, override)` from src/utils/obj.js:14-24.
The template object is represented by its (enumerable) key list `templateKeys`
together with its initial values `template`; the result is the template object
after the loop ran over every template key.  Keys outside `templateKeys` are
never written, mirroring that the loop only visits the template's keys. -/
def overrideObject (templateKeys : List String) (template : String → JVal)
    (obj override : Option (String → JVal)) : String → JVal :=
  templateKeys.foldl (overrideStep obj override) template

/-- `isStringNull(str)` from src/utils/obj.js:32-38 (same text in the sibling
vulcan module): `false` exactly when the string is truthy (non-empty) and not
the literal `'null'`. -/
def isStringNull (str : Option String) : Bool :=
  match str with
  | none => true
  | some s => if s != "" && s != "null" then false else true

/-- Auxiliary loop for `jsSplit`, structurally recursive on the character
list so the kernel can evaluate it. -/
def jsSplitAux (sep : Char) : List Char → List Char → List String
  | [], cur => [String.mk cur.reverse]
  | c :: rest, cur =>
    if c = sep then String.mk cur.reverse :: jsSplitAux sep rest []
    else jsSplitAux sep rest (c :: cur)

/-- JavaScript `s.split(sep)` for a one-character separator, as used by the
source with `','` and `'/'`.  Like in JS, `"".split(',') = [""]` and the result
is never empty. -/
def jsSplit (s : String) (sep : Char) : List String :=
  jsSplitAux sep s.toList []

/-- Error tokens, one per distinct `throw` site of the embedded code (the
source throws `Error(message)`; the message template identifies the site) plus
`nullDeref` for a JavaScript `TypeError` (property access on `null`/`undefined`)
and `external` for a failure reported by an AWS/file collaborator. -/
inductive VErr where
  | insufficientTargetGroups
  | targetGroupMismatch
  | unsupportedTopology
  | tooManyContainerDefinitions
  | missingBlueTargetGroup
  | firstDeploymentNeedsTaskDefinitionFile
  | firstDeploymentNeedsTaskSetFile
  | missingTaskDefinitionInBlue
  | noLoadBalancerInTaskSet
  | ambiguousPrimaryTaskSet
  | targetGroupNotFound
  | nullDeref
  | external : String → VErr
deriving DecidableEq, Repr

/-- One load-balancer binding of a task set (`loadBalancers[i]`): the fields
the embedded code reads. -/
structure LoadBalancerCfg where
  targetGroupArn : String
deriving DecidableEq, Repr

/-- A task set object as the embedded code observes it, covering both the
shape returned by `describeTaskSets` (`taskSetArn`, `status`, `taskDefinition`,
`serviceArn`, `clusterArn`, `loadBalancers`) and the create-task-set input
shape (`service`, `cluster`).  Fields the code never reads are omitted;
`Option.none` stands for JS `null`/`undefined`/absent. -/
structure TaskSetObj where
  taskSetArn : String := ""
  status : String := ""
  taskDefinition : Option String := none
  loadBalancers : Option (List LoadBalancerCfg) := none
  serviceArn : Option String := none
  clusterArn : Option String := none
  service : Option String := none
  cluster : Option String := none
deriving DecidableEq, Repr

/-- One container definition of a task definition: the fields read by
`createTaskDefinition` / `assembleTaskDefinition`. -/
structure ContainerDef where
  name : String := ""
  image : String := ""
deriving DecidableEq, Repr

/-- A task definition object: the fields the embedded code writes. -/
structure TaskDef where
  family : Option String := none
  executionRoleArn : Option String := none
  taskRoleArn : Option String := none
  containerDefinitions : List ContainerDef := []
deriving DecidableEq, Repr

/-- The pair returned by `getTargetGroupsWithBlueGreenEnabled`. -/
structure BlueGreenTargetGroups where
  green : String
  blue : String
deriving DecidableEq, Repr

/-- `isLoadBalancerPresent(taskSet)` from src/lib/vulcan.js:83-106 (identical,
up to log text, in the sibling vulcan module): `false` when the
`loadBalancers` key is absent (JS falsy) or the list is empty, `true` when it
has exactly one entry, and a thrown error ("More than 1 load balancers
detected…") when it has more than one.  The trailing `.ok false` mirrors the
function's final `return false` (unreachable once the key is present). -/
def isLoadBalancerPresent (taskSet : TaskSetObj) : Except VErr Bool :=
  match taskSet.loadBalancers with
  | some lbs =>
    if lbs.length = 0 then .ok false
    else if lbs.length = 1 then .ok true
    else if lbs.length > 1 then .error .unsupportedTopology
    else .ok false
  | none => .ok false

/-- `getTargetGroupsWithBlueGreenEnabled(targetGroupsString, oldTaskSet)` from
src/lib/vulcan.js:115-162 (same logic in the sibling vulcan module).  A `none`
string or a split with at most one entry throws the "At least two target
groups" error; otherwise the second path component of the blue task set's
bound target-group ARN is compared against the first two supplied names:
a match on index 1 returns `{green := tg0, blue := tg1}`, a match on index 0
returns `{green := tg1, blue := tg0}` (the source's `blue` field carries
`blueTargetGroup`, which equals the matched name in each branch), and no
match throws the mismatch error.  Reading `loadBalancers[0].targetGroupArn`
off a task set without a binding is a JS `TypeError` (`nullDeref`). -/
def getTargetGroupsWithBlueGreenEnabled (targetGroupsString : Option String)
    (oldTaskSet : TaskSetObj) : Except VErr BlueGreenTargetGroups :=
  match targetGroupsString with
  | none => .error .insufficientTargetGroups
  | some s =>
    let targetGroups := jsSplit s ','
    if targetGroups.length ≤ 1 then .error .insufficientTargetGroups
    else
      match oldTaskSet.loadBalancers with
      | none => .error .nullDeref
      | some [] => .error .nullDeref
      | some (lb :: _) =>
        let blueTargetGroup := (jsSplit lb.targetGroupArn '/')[1]?
        let tg0 := targetGroups.getD 0 ""
        let tg1 := targetGroups.getD 1 ""
        if blueTargetGroup = some tg1 then .ok { green := tg0, blue := tg1 }
        else if blueTargetGroup = some tg0 then .ok { green := tg1, blue := tg0 }
        else .error .targetGroupMismatch

/-- `getTargetGroupWithBlueGreenDisabled(targetGroupsString)` from the sibling
vulcan module (the variant `deploy.js` imports): a `none` string throws the
"At least one target group" error, otherwise the first entry of the comma
split is returned (the split is never empty, so the `length == 0` throw is
dead code, kept here as the impossible `if`). -/
def getTargetGroupWithBlueGreenDisabled (targetGroupsString : Option String) :
    Except VErr String :=
  match targetGroupsString with
  | none => .error .insufficientTargetGroups
  | some s =>
    let targetGroups := jsSplit s ','
    if targetGroups.length = 0 then .error .insufficientTargetGroups
    else .ok (targetGroups.getD 0 "")

/-- `findBlueTaskSet(taskSets)` from src/lib/vulcan.js:56-75: `null` for an
empty list, otherwise the first task set whose `status` is `PRIMARY` (the
source breaks at the first hit), or `null` when none matches. -/
def findBlueTaskSet (taskSets : List TaskSetObj) : Option TaskSetObj :=
  if taskSets.length = 0 then none
  else taskSets.find? (fun taskSet => taskSet.status == "PRIMARY")

/-- One weighted entry of a forward action's `ForwardConfig.TargetGroups`
array (src/utils/aws.js:268-277). -/
structure WeightedTargetGroup where
  TargetGroupArn : String
  Weight : Int
deriving DecidableEq, Repr

/-- The `ForwardConfig` object of a listener-rule action. -/
structure ForwardConfigObj where
  TargetGroups : List WeightedTargetGroup
deriving DecidableEq, Repr

/-- A listener-rule action as built by src/utils/aws.js.  The JS key `Type`
is rendered `typ` (`Type` is a Lean keyword); `modifyListenerRule` sets
`TargetGroupArn` directly, `divideListenerRule` sets `ForwardConfig`. -/
structure ListenerRuleAction where
  typ : String
  TargetGroupArn : Option String := none
  ForwardConfig : Option ForwardConfigObj := none
deriving DecidableEq, Repr

/-- The parameter object passed to `ELBv2().modifyRule`. -/
structure ModifyRuleParams where
  Actions : List ListenerRuleAction
  RuleArn : String
deriving DecidableEq, Repr

/-- The request built by `divideListenerRule(listenerRuleARN,
blueTargetGroupARN, greenTargetGroupARN, percent)` in src/utils/aws.js:256-294:
one forward action whose `ForwardConfig.TargetGroups` holds the green group
with weight `percent` and the blue group with weight `100 - percent`.  The
function performs no validation or clamping of `percent`; the request is
always issued to `modifyRule`. -/
def divideListenerRule (listenerRuleARN blueTargetGroupARN greenTargetGroupARN : String)
    (percent : Int) : ModifyRuleParams :=
  { Actions := [
      { typ := "forward",
        ForwardConfig := some { TargetGroups := [
          { TargetGroupArn := greenTargetGroupARN, Weight := percent },
          { TargetGroupArn := blueTargetGroupARN, Weight := 100 - percent } ] } } ],
    RuleArn := listenerRuleARN }

/-- The request built by `modifyListenerRule(listenerRuleArn, targetGroupArn)`
in src/utils/aws.js:223-245: a single unweighted forward action. -/
def modifyListenerRuleParams (listenerRuleArn targetGroupArn : String) : ModifyRuleParams :=
  { Actions := [ { typ := "forward", TargetGroupArn := some targetGroupArn } ],
    RuleArn := listenerRuleArn }

/-- All weighted target-group entries carried by a modify-rule request (the
concatenation of the `ForwardConfig.TargetGroups` arrays of its actions). -/
def forwardTargetGroups (p : ModifyRuleParams) : List WeightedTargetGroup :=
  (p.Actions.map (fun a =>
    match a.ForwardConfig with
    | some c => c.TargetGroups
    | none => [])).flatten

/-- The entries of a modify-rule request that receive a non-zero traffic
weight (the targets effectively routed to). -/
def effectiveTargets (p : ModifyRuleParams) : List WeightedTargetGroup :=
  (forwardTargetGroups p).filter (fun t => t.Weight ≠ 0)

/-- Specification of blue-green target-group resolution against a blue task
set whose first load-balancer binding is `lb`: fewer than two supplied names
fail with the insufficient-target-groups error; with at least two names, a
successful result is the pair of the first two names with `blue` the one
matching the second path component of `lb`'s target-group ARN; when neither
name matches that component the mismatch error is thrown; when either
matches, the call succeeds. -/
def BlueGreenResolutionCorrect (targetGroupsString : Option String)
    (oldTaskSet : TaskSetObj) (lb : LoadBalancerCfg) : Prop :=
  (targetGroupsString = none →
     getTargetGroupsWithBlueGreenEnabled targetGroupsString oldTaskSet =
       .error .insufficientTargetGroups) ∧
  (∀ s, targetGroupsString = some s → (jsSplit s ',').length ≤ 1 →
     getTargetGroupsWithBlueGreenEnabled targetGroupsString oldTaskSet =
       .error .insufficientTargetGroups) ∧
  (∀ s tg0 tg1 tgrest, targetGroupsString = some s →
     jsSplit s ',' = tg0 :: tg1 :: tgrest →
     (∀ r, getTargetGroupsWithBlueGreenEnabled targetGroupsString oldTaskSet = .ok r →
        ((r.blue = tg0 ∧ r.green = tg1) ∨ (r.blue = tg1 ∧ r.green = tg0)) ∧
        (jsSplit lb.targetGroupArn '/')[1]? = some r.blue) ∧
     ((jsSplit lb.targetGroupArn '/')[1]? ≠ some tg0 →
      (jsSplit lb.targetGroupArn '/')[1]? ≠ some tg1 →
      getTargetGroupsWithBlueGreenEnabled targetGroupsString oldTaskSet =
        .error .targetGroupMismatch) ∧
     (((jsSplit lb.targetGroupArn '/')[1]? = some tg0 ∨
       (jsSplit lb.targetGroupArn '/')[1]? = some tg1) →
      ∃ r, getTargetGroupsWithBlueGreenEnabled targetGroupsString oldTaskSet = .ok r))

end Vulcan

namespace Vulcan.Rollback

/-- The collaborator calls the `rollback` handler can issue, in the order it
issues them (the calls themselves are assumed to succeed; their own failures
are external). -/
inductive RbCall where
  | deleteTaskSet : String → String → String → RbCall
  | deregisterTaskDefinition : String → RbCall
  | modifyListenerRule : Option String → Option String → RbCall
deriving DecidableEq, Repr

/-- The named flags of the `rollback` command (`argv`); string flags the
caller omitted are `none`. -/
structure RollbackArgv where
  serviceName : String := ""
  clusterName : String := ""
  greenTaskSetArn : Option String := none
  greenTaskDefinitionArn : Option String := none
  isLoadBalancerPresent : Bool := false
  isInitialDeployment : Bool := false
  blueTargetGroupArn : Option String := none
  liveListenerRuleArn : Option String := none
deriving DecidableEq, Repr

/-- The `rollback` handler (the variant that null-checks the blue target
group ARN): first `deleteTaskSet` for a non-null green task-set ARN, then
`deregisterTaskDefinition` for a non-null green task-definition ARN, then —
when `isLoadBalancerPresent && !isInitialDeployment` — either the thrown
"Load Balancer Listener Rule could not be changed as no blue-target-group-arn
was specified" error when `isStringNull(blueTargetGroupArn)`, or the
`modifyListenerRule` call restoring the blue target group.  The result is the
list of collaborator calls performed, paired with the handler's outcome. -/
def rollbackHandler (argv : RollbackArgv) : List RbCall × Except VErr Unit :=
  let deleteCalls :=
    if !(isStringNull argv.greenTaskSetArn) then
      [RbCall.deleteTaskSet argv.serviceName argv.clusterName
        (argv.greenTaskSetArn.getD "")]
    else []
  let deregisterCalls :=
    if !(isStringNull argv.greenTaskDefinitionArn) then
      [RbCall.deregisterTaskDefinition (argv.greenTaskDefinitionArn.getD "")]
    else []
  if argv.isLoadBalancerPresent && !argv.isInitialDeployment then
    if isStringNull argv.blueTargetGroupArn then
      (deleteCalls ++ deregisterCalls, .error .missingBlueTargetGroup)
    else
      (deleteCalls ++ deregisterCalls ++
        [RbCall.modifyListenerRule argv.liveListenerRuleArn argv.blueTargetGroupArn],
       .ok ())
  else
    (deleteCalls ++ deregisterCalls, .ok ())

end Vulcan.Rollback

namespace Vulcan.Deploy

open Vulcan

/-- `createTaskDefinition(taskDefinition, image, taskDefinitionFamily,
taskExecutionRoleArn, taskRoleArn)` from the vulcan module `deploy.js`
imports: more than one container definition throws the "More than 1 container
definitions" error; otherwise the family is set, each role collapses to `null`
when it is the literal `'null'` or falsy (empty/absent), and the single
container's image is replaced.  Writing `containerDefinitions[0].image` on an
empty array is a JS `TypeError`. -/
def createTaskDefinition (taskDefinition : TaskDef) (image : String)
    (taskDefinitionFamily : String) (taskExecutionRoleArn taskRoleArn : Option String) :
    Except VErr TaskDef :=
  if taskDefinition.containerDefinitions.length > 1 then
    .error .tooManyContainerDefinitions
  else
    let execRole :=
      match taskExecutionRoleArn with
      | none => none
      | some r => if r = "null" ∨ r = "" then none else some r
    let taskRole :=
      match taskRoleArn with
      | none => none
      | some r => if r = "null" ∨ r = "" then none else some r
    match taskDefinition.containerDefinitions with
    | [] => .error .nullDeref
    | c :: rest =>
      .ok { taskDefinition with
              family := some taskDefinitionFamily,
              executionRoleArn := execRole,
              taskRoleArn := taskRole,
              containerDefinitions := { c with image := image } :: rest }

/-- `transformToTaskSet(awsTaskSet)`: builds the create-task-set input from a
described task set.  The source reads `awsTaskSet.taskDefinition.taskDefinitionArn`,
but a described task set's `taskDefinition` is the ARN string itself, so the
result's `taskDefinition` is JS `undefined` (`none`); `loadBalancers` is
carried over.  Fields this development never reads (network configuration,
service registries, launch type, scale, capacity providers, tags) are not
modelled. -/
def transformToTaskSet (awsTaskSet : TaskSetObj) : TaskSetObj :=
  { service := awsTaskSet.serviceArn,
    cluster := awsTaskSet.clusterArn,
    taskDefinition := none,
    loadBalancers := awsTaskSet.loadBalancers }

/-- Oracle for the external collaborators the deploy workflow touches: each
field is the outcome of the named AWS call or JSON file read (success value,
or the error the call would throw). -/
structure DeployWorld where
  describeBlueTaskSet : Except VErr TaskSetObj
  readTaskDefinitionJSON : String → Except VErr TaskDef
  describeTaskDefinition : String → Except VErr TaskDef
  readTaskSetJSON : String → Except VErr TaskSetObj
  registerTaskDefinition : TaskDef → Except VErr String
  createTaskSet : TaskSetObj → Except VErr String
  describeTargetGroup : String → Except VErr (List String)
  modifyListenerRule : Option String → String → Except VErr Unit

/-- `getTargetGroupARN(targetGroupName)`: describes the target group and
throws the "Unable to find ARN for target group" error unless exactly one
match is returned. -/
def getTargetGroupARN (w : DeployWorld) (targetGroupName : String) : Except VErr String :=
  match w.describeTargetGroup targetGroupName with
  | .error e => .error e
  | .ok tgs =>
    if tgs.length ≠ 1 then .error .targetGroupNotFound
    else .ok (tgs.getD 0 "")

/-- `getTaskDefinition(isBluePresent, blueTaskSet, taskDefinitionFile)` from
the vulcan module `deploy.js` imports: on a first deployment a file that is
absent, empty or the literal `'null'` throws the "first time deployment"
error, otherwise the file is read; with a blue present a truthy file path
takes precedence, else the blue task set's task definition is described (its
server-assigned fields are stripped before reuse — those fields are not part
of the `TaskDef` model).  A missing `taskDefinition` on the blue task set
throws the "Can't find taskDefinition in blueTaskSet" error. -/
def getTaskDefinition (w : DeployWorld) (isBluePresent : Bool)
    (blueTaskSet : Option TaskSetObj) (taskDefinitionFile : Option String) :
    Except VErr TaskDef :=
  if isBluePresent = false then
    match taskDefinitionFile with
    | none => .error .firstDeploymentNeedsTaskDefinitionFile
    | some f =>
      if f = "" ∨ f = "null" then .error .firstDeploymentNeedsTaskDefinitionFile
      else w.readTaskDefinitionJSON f
  else if taskDefinitionFile.getD "" ≠ "" then
    w.readTaskDefinitionJSON (taskDefinitionFile.getD "")
  else
    match blueTaskSet with
    | none => .error .nullDeref
    | some blue =>
      match blue.taskDefinition with
      | none => .error .missingTaskDefinitionInBlue
      | some arn => w.describeTaskDefinition arn

/-- `getTaskSet(isBluePresent, blueTaskSet, taskSetFile)` from the vulcan
module `deploy.js` imports: on a first deployment a falsy file path throws the
"first time deployment" error, otherwise the file is read; with a blue present
a truthy file path takes precedence, else the blue task set is transformed
into a create-task-set input. -/
def getTaskSet (w : DeployWorld) (isBluePresent : Bool)
    (blueTaskSet : Option TaskSetObj) (taskSetFile : Option String) :
    Except VErr TaskSetObj :=
  if isBluePresent = false then
    if taskSetFile.getD "" = "" then .error .firstDeploymentNeedsTaskSetFile
    else w.readTaskSetJSON (taskSetFile.getD "")
  else if taskSetFile.getD "" ≠ "" then
    w.readTaskSetJSON (taskSetFile.getD "")
  else
    match blueTaskSet with
    | none => .error .nullDeref
    | some blue => .ok (transformToTaskSet blue)

/-- `createTaskSet(taskSet, registeredTaskDefinition, targetGroup, serviceName,
clusterName)` from the vulcan module `deploy.js` imports: rebinds the spec's
task definition, service and cluster; when a target group ARN is supplied the
spec must already declare a `loadBalancers` array (else the "No load balancer
detected in new task set" error) and its first entry's target-group ARN is
overwritten (a JS `TypeError` on an empty array); finally the cluster API
creates the task set and the created task set's ARN is returned. -/
def vulcanCreateTaskSet (w : DeployWorld) (taskSet : TaskSetObj)
    (registeredTaskDefinitionArn : String) (targetGroup : Option String)
    (serviceName clusterName : String) : Except VErr String :=
  let ts := { taskSet with
                taskDefinition := some registeredTaskDefinitionArn,
                service := some serviceName,
                cluster := some clusterName }
  match targetGroup with
  | none => w.createTaskSet ts
  | some tg =>
    match ts.loadBalancers with
    | none => .error .noLoadBalancerInTaskSet
    | some [] => .error .nullDeref
    | some (lb :: rest) =>
      w.createTaskSet
        { ts with loadBalancers := some ({ lb with targetGroupArn := tg } :: rest) }

/-- The vulcan state record of `deploy.js:115-124`, in its initial shape. -/
structure VulcanState where
  isInitialDeployment : Bool := false
  isCanaryEligible : Bool := false
  isLoadBalancerPresent : Bool := false
  blueTargetGroupArn : Option String := none
  greenTargetGroupArn : Option String := none
  blueTaskSetArn : Option String := none
  greenTaskSetArn : Option String := none
  greenTaskDefinitionArn : Option String := none
deriving DecidableEq, Repr

/-- The named flags of the `deploy` command that the handler reads. -/
structure DeployArgv where
  serviceName : String := ""
  clusterName : String := ""
  image : String := ""
  taskDefinitionFamily : String := ""
  taskExecutionRoleArn : Option String := none
  taskRoleArn : Option String := none
  targetGroups : Option String := none
  liveListenerRuleArn : Option String := none
  testListenerRuleArn : Option String := none
  blueTaskSetArn : Option String := none
  taskDefinitionFile : Option String := none
  taskSetFile : Option String := none
  isBlueGreen : Bool := false
  outputFile : String := "state.json"
deriving DecidableEq, Repr

/-- The side-effecting collaborator calls the deploy workflow completes, in
order: a successful blue task-set description, a successful task-definition
registration (with the returned ARN), a successful task-set creation (with
the created ARN), a successful listener-rule modification, and each state
file write. -/
inductive DeployCall where
  | describeTaskSet : String → DeployCall
  | registerTaskDefinition : String → DeployCall
  | createTaskSet : String → DeployCall
  | modifyListenerRule : Option String → String → DeployCall
  | writeJSON : String → VulcanState → DeployCall
deriving DecidableEq, Repr

/-- The body of the `deploy` handler's `try` block after the blue task set has
been resolved (deploy.js:142-315): computes the calls completed, the state
record as updated so far, and the outcome.  State fields are assigned exactly
where the source assigns them: `blueTaskSetArn`/`isInitialDeployment` up
front, `greenTaskDefinitionArn` right after registration, and the remaining
fields only at the end of the taken `switch` branch — in both load-balancer
branches that is after `modifyListenerRule`, so a listener failure leaves
`greenTaskSetArn` unset even though the task set was created. -/
def deployAfterBlue (w : DeployWorld) (argv : DeployArgv)
    (trace : List DeployCall) (blueTaskSet : Option TaskSetObj) :
    List DeployCall × VulcanState × Except VErr Unit :=
  let isBluePresent := blueTaskSet.isSome
  let st : VulcanState :=
    { isInitialDeployment := !isBluePresent, blueTaskSetArn := argv.blueTaskSetArn }
  match getTaskDefinition w isBluePresent blueTaskSet argv.taskDefinitionFile with
  | .error e => (trace, st, .error e)
  | .ok taskDefinition =>
  match createTaskDefinition taskDefinition argv.image argv.taskDefinitionFamily
      argv.taskExecutionRoleArn argv.taskRoleArn with
  | .error e => (trace, st, .error e)
  | .ok greenTaskDefinition =>
  match w.registerTaskDefinition greenTaskDefinition with
  | .error e => (trace, st, .error e)
  | .ok registeredArn =>
  let trace := trace ++ [DeployCall.registerTaskDefinition registeredArn]
  let st := { st with greenTaskDefinitionArn := some registeredArn }
  match getTaskSet w isBluePresent blueTaskSet argv.taskSetFile with
  | .error e => (trace, st, .error e)
  | .ok greenTaskSet =>
  match (match blueTaskSet with
         | some blue => isLoadBalancerPresent blue
         | none => isLoadBalancerPresent greenTaskSet) with
  | .error e => (trace, st, .error e)
  | .ok isLoadBalancer =>
  if isLoadBalancer = false then
    match vulcanCreateTaskSet w greenTaskSet registeredArn none
        argv.serviceName argv.clusterName with
    | .error e => (trace, st, .error e)
    | .ok createdArn =>
      (trace ++ [DeployCall.createTaskSet createdArn],
       { st with isCanaryEligible := false, isLoadBalancerPresent := false,
                 greenTaskSetArn := some createdArn },
       .ok ())
  else if argv.isBlueGreen && isBluePresent then
    match (match blueTaskSet with
           | some blue => getTargetGroupsWithBlueGreenEnabled argv.targetGroups blue
           | none => .error .nullDeref) with
    | .error e => (trace, st, .error e)
    | .ok targetGroupPair =>
    match getTargetGroupARN w targetGroupPair.green with
    | .error e => (trace, st, .error e)
    | .ok greenTargetGroupArn =>
    match getTargetGroupARN w targetGroupPair.blue with
    | .error e => (trace, st, .error e)
    | .ok blueTargetGroupArn =>
    match vulcanCreateTaskSet w greenTaskSet registeredArn (some greenTargetGroupArn)
        argv.serviceName argv.clusterName with
    | .error e => (trace, st, .error e)
    | .ok createdArn =>
    let trace := trace ++ [DeployCall.createTaskSet createdArn]
    match w.modifyListenerRule argv.testListenerRuleArn greenTargetGroupArn with
    | .error e => (trace, st, .error e)
    | .ok _ =>
      (trace ++ [DeployCall.modifyListenerRule argv.testListenerRuleArn greenTargetGroupArn],
       { st with isCanaryEligible := true, isLoadBalancerPresent := true,
                 greenTaskSetArn := some createdArn,
                 greenTargetGroupArn := some greenTargetGroupArn,
                 blueTargetGroupArn := some blueTargetGroupArn },
       .ok ())
  else
    match getTargetGroupWithBlueGreenDisabled argv.targetGroups with
    | .error e => (trace, st, .error e)
    | .ok greenTargetGroup =>
    match getTargetGroupARN w greenTargetGroup with
    | .error e => (trace, st, .error e)
    | .ok greenTargetGroupArn =>
    match vulcanCreateTaskSet w greenTaskSet registeredArn (some greenTargetGroupArn)
        argv.serviceName argv.clusterName with
    | .error e => (trace, st, .error e)
    | .ok createdArn =>
    let trace := trace ++ [DeployCall.createTaskSet createdArn]
    match w.modifyListenerRule argv.liveListenerRuleArn greenTargetGroupArn with
    | .error e => (trace, st, .error e)
    | .ok _ =>
      (trace ++ [DeployCall.modifyListenerRule argv.liveListenerRuleArn greenTargetGroupArn],
       { st with isCanaryEligible := false, isLoadBalancerPresent := true,
                 greenTaskSetArn := some createdArn,
                 greenTargetGroupArn := some greenTargetGroupArn },
       .ok ())

/-- The body of the `deploy` handler's `try` block (deploy.js:126-315): when
`blueTaskSetArn` is non-null the blue task set is described first (a failure
there, including an empty description, aborts with the initial state);
otherwise this is the first deployment and the body continues with no blue. -/
def deployBody (w : DeployWorld) (argv : DeployArgv) :
    List DeployCall × VulcanState × Except VErr Unit :=
  if !(isStringNull argv.blueTaskSetArn) then
    match w.describeBlueTaskSet with
    | .error e => ([], {}, .error e)
    | .ok blue =>
      deployAfterBlue w argv [DeployCall.describeTaskSet (argv.blueTaskSetArn.getD "")]
        (some blue)
  else
    deployAfterBlue w argv [] none

/-- The `deploy` handler (deploy.js:111-323): runs the body under the
top-level `try`; on success the state file is written and the handler
succeeds, on failure the catch block writes the very same state record and
re-raises the original error.  The returned state is the record written to
`argv.outputFile`. -/
def deployHandler (w : DeployWorld) (argv : DeployArgv) :
    List DeployCall × VulcanState × Except VErr Unit :=
  match deployBody w argv with
  | (trace, st, .ok _) =>
    (trace ++ [DeployCall.writeJSON argv.outputFile st], st, .ok ())
  | (trace, st, .error e) =>
    (trace ++ [DeployCall.writeJSON argv.outputFile st], st, .error e)

end Vulcan.Deploy

namespace Vulcan.Bootstrap

open Vulcan

/-- The collaborator calls issued by the bootstrap fragments modelled here. -/
inductive BootCall where
  | updateServicePrimaryTaskSet : String → String → String → BootCall
deriving DecidableEq, Repr

/-- Step 2 of the `bootstrap` handler (bootstrap.js:146-183): finds the blue
(PRIMARY) task set; when none exists, an empty task-set list marks a first
deployment, a single task set is designated PRIMARY through
`updateServicePrimaryTaskSet` (the source logs that it "has been set as the
blue task set" but assigns nothing to its local `blueTaskSet`, which stays
`null` while `isBlueTaskSetPresent` stays `true`), and more than one task set
throws the "Multiple active task sets found but no blue task set found" error.
Returns the promotion calls issued together with
`(isBlueTaskSetPresent, blueTaskSet)`. -/
def bootstrapBlueSwitch (serviceName clusterName : String)
    (taskSets : List TaskSetObj) :
    List BootCall × Except VErr (Bool × Option TaskSetObj) :=
  match findBlueTaskSet taskSets with
  | some blue => ([], .ok (true, some blue))
  | none =>
    if taskSets.length = 0 then ([], .ok (false, none))
    else if taskSets.length = 1 then
      ([BootCall.updateServicePrimaryTaskSet serviceName clusterName
          ((taskSets.headD {}).taskSetArn)],
       .ok (true, none))
    else ([], .error .ambiguousPrimaryTaskSet)

/-- Step 3's source selection for the green task definition
(bootstrap.js:189-215): a non-null override file path wins; otherwise, when a
blue task set is recorded as present, `blueTaskSet.taskDefinition` is
described — a JS `TypeError` (`nullDeref`) when the local `blueTaskSet` is
actually `null`; with no blue present the "Neither a task definition file is
present nor a blue task definition exists" error is thrown. -/
def bootstrapGreenTaskDefinition
    (readJSON : String → Except VErr TaskDef)
    (describeTaskDefinition : Option String → Except VErr TaskDef)
    (greenTaskDefinitionFile : Option String) (isBlueTaskSetPresent : Bool)
    (blueTaskSet : Option TaskSetObj) : Except VErr TaskDef :=
  if !(isStringNull greenTaskDefinitionFile) then
    readJSON (greenTaskDefinitionFile.getD "")
  else if isBlueTaskSetPresent then
    match blueTaskSet with
    | none => .error .nullDeref
    | some blue => describeTaskDefinition blue.taskDefinition
  else .error .firstDeploymentNeedsTaskDefinitionFile

end Vulcan.Bootstrap

namespace Vulcan

/-- Specification of what the in-range split request contains: exactly the
two weighted entries (green at `percent`, blue at `100 - percent`), weights
summing to 100, all actions of forward type, and the degenerate endpoints
routing effectively to a single target. -/
def DivideInRangeSpec (rule blue green : String) (percent : Int) : Prop :=
  forwardTargetGroups (divideListenerRule rule blue green percent) =
    [{ TargetGroupArn := green, Weight := percent },
     { TargetGroupArn := blue, Weight := 100 - percent }] ∧
  (forwardTargetGroups (divideListenerRule rule blue green percent)).length = 2 ∧
  ((forwardTargetGroups (divideListenerRule rule blue green percent)).map
      WeightedTargetGroup.Weight).sum = 100 ∧
  (∀ a ∈ (divideListenerRule rule blue green percent).Actions, a.typ = "forward") ∧
  (percent = 0 →
    effectiveTargets (divideListenerRule rule blue green percent) =
      [{ TargetGroupArn := blue, Weight := 100 }]) ∧
  (percent = 100 →
    effectiveTargets (divideListenerRule rule blue green percent) =
      [{ TargetGroupArn := green, Weight := 100 }])

/-- Specification of how an out-of-range percent flows through the split: the
modify-rule request is still built against the rule (no local failure), the
weights are the caller's values verbatim, and at least one weight lies
outside `[0, 100]` — nothing was clamped. -/
def UnvalidatedSplitSpec (rule blue green : String) (percent : Int) : Prop :=
  (divideListenerRule rule blue green percent).RuleArn = rule ∧
  forwardTargetGroups (divideListenerRule rule blue green percent) =
    [{ TargetGroupArn := green, Weight := percent },
     { TargetGroupArn := blue, Weight := 100 - percent }] ∧
  ¬ (∀ t ∈ forwardTargetGroups (divideListenerRule rule blue green percent),
      0 ≤ t.Weight ∧ t.Weight ≤ 100)

end Vulcan

namespace Vulcan.Rollback

/-- Specification of the rollback run over a state with a load balancer, a
non-initial deployment and a null blue target group ARN: the handler fails
with the missing-blue-target-group error, the green task-set deletion has
already been performed whenever `greenTaskSetArn` is non-null, and is absent
from the run exactly when `greenTaskSetArn` is null. -/
def RollbackMissingBlueBehavior (argv : RollbackArgv) : Prop :=
  (rollbackHandler argv).2 = .error .missingBlueTargetGroup ∧
  (isStringNull argv.greenTaskSetArn = false →
    RbCall.deleteTaskSet argv.serviceName argv.clusterName
      (argv.greenTaskSetArn.getD "") ∈ (rollbackHandler argv).1) ∧
  (isStringNull argv.greenTaskSetArn = true →
    ∀ s c a, RbCall.deleteTaskSet s c a ∉ (rollbackHandler argv).1)

/-- Rollback invocation over the state of a failed non-initial deployment
with a load balancer whose `blueTargetGroupArn` was never recorded, while the
green task set `arn:green-ts` was created. -/
def rollbackArgvNoBlue : RollbackArgv :=
  { serviceName := "svc", clusterName := "clu",
    greenTaskSetArn := some "arn:green-ts",
    isLoadBalancerPresent := true,
    liveListenerRuleArn := some "arn:live-rule" }

end Vulcan.Rollback

namespace Vulcan.Deploy

/-- Oracle where every collaborator call succeeds except the listener-rule
modification: the blue task set `arn:blue-ts` is PRIMARY with one binding to
the target group `tg/blue-tg/x`, registration yields `arn:green-td`, task-set
creation yields `arn:green-ts`, target-group names resolve uniquely, and
`modifyListenerRule` throws. -/
def deployWorldListenerFails : DeployWorld :=
  { describeBlueTaskSet := .ok
      { taskSetArn := "arn:blue-ts", status := "PRIMARY",
        taskDefinition := some "arn:blue-td",
        loadBalancers := some [{ targetGroupArn := "tg/blue-tg/x" }],
        serviceArn := some "svc-arn", clusterArn := some "clu-arn" },
    readTaskDefinitionJSON := fun _ => .error (.external "unused"),
    describeTaskDefinition := fun _ =>
      .ok { containerDefinitions := [{ name := "app", image := "old-image" }] },
    readTaskSetJSON := fun _ => .error (.external "unused"),
    registerTaskDefinition := fun _ => .ok "arn:green-td",
    createTaskSet := fun _ => .ok "arn:green-ts",
    describeTargetGroup := fun name => .ok ["arn:tg:" ++ name],
    modifyListenerRule := fun _ _ => .error (.external "listener failure") }

/-- Deploy invocation for a blue-green deployment against an existing blue
task set, with no task-definition or task-set input files. -/
def deployArgvBlueGreen : DeployArgv :=
  { serviceName := "svc", clusterName := "clu", image := "new-image",
    taskDefinitionFamily := "fam",
    taskExecutionRoleArn := some "arn:exec-role",
    taskRoleArn := some "arn:task-role",
    targetGroups := some "blue-tg,green-tg",
    liveListenerRuleArn := some "arn:live-rule",
    testListenerRuleArn := some "arn:test-rule",
    blueTaskSetArn := some "arn:blue-ts",
    isBlueGreen := true,
    outputFile := "state.json" }

end Vulcan.Deploy

namespace Vulcan

/-- Truthiness of a guarded field access agrees with truthiness of the raw
value (`undefined` is falsy). -/
theorem truthyField_eq (o : Option (String → JVal)) (k : String) :
    truthyField o k = (fieldVal o k).truthy := by
  cases o <;> rfl

/-- One loop iteration leaves keys other than the visited one untouched. -/
theorem overrideStep_ne (obj override : Option (String → JVal))
    (acc : String → JVal) (key k : String) (h : k ≠ key) :
    overrideStep obj override acc key k = acc k := by
  unfold overrideStep
  split_ifs <;> simp [h]

/-- One loop iteration writes the visited key according to the
override-then-base-then-keep precedence. -/
theorem overrideStep_self (obj override : Option (String → JVal))
    (acc : String → JVal) (key : String) :
    overrideStep obj override acc key key =
      if truthyField override key then fieldVal override key
      else if truthyField obj key then fieldVal obj key
      else acc key := by
  unfold overrideStep
  split_ifs <;> simp

/-- Pointwise value of the `overrideObject` loop, for any accumulator: a key
visited by the loop with some truthy source takes the precedence value, every
other key keeps the accumulator's value.  The formula is stable under
duplicate keys, matching the idempotence of the loop body. -/
theorem overrideFold_apply (obj override : Option (String → JVal))
    (tks : List String) (acc : String → JVal) (k : String) :
    tks.foldl (overrideStep obj override) acc k =
      if k ∈ tks ∧ (truthyField override k ∨ truthyField obj k) then
        (if truthyField override k then fieldVal override k else fieldVal obj k)
      else acc k := by
  induction tks generalizing acc with
  | nil => simp
  | cons key rest ih =>
    simp only [List.foldl_cons]
    rw [ih]
    by_cases hk : k = key
    · subst hk
      rw [overrideStep_self]
      by_cases ho : truthyField override k
      · by_cases hr : k ∈ rest <;> simp [ho, hr]
      · by_cases hb : truthyField obj k
        · by_cases hr : k ∈ rest <;> simp [ho, hb, hr]
        · simp [ho, hb]
    · rw [overrideStep_ne _ _ _ _ _ hk]
      by_cases hr : k ∈ rest <;> simp [hr, hk]

/-- Pointwise characterisation of `overrideObject`: on template keys the
override value wins when truthy, else a truthy base value, else the
template's initial value; keys outside the template key set are never
written. -/
theorem overrideObject_apply (templateKeys : List String)
    (template : String → JVal) (obj override : Option (String → JVal))
    (k : String) :
    overrideObject templateKeys template obj override k =
      if k ∈ templateKeys then
        (if truthyField override k then fieldVal override k
         else if truthyField obj k then fieldVal obj k
         else template k)
      else template k := by
  unfold overrideObject
  rw [overrideFold_apply]
  by_cases hm : k ∈ templateKeys
  · by_cases ho : truthyField override k
    · simp [hm, ho]
    · by_cases hb : truthyField obj k <;> simp [hm, ho, hb]
  · simp [hm]

/-- C2, counterexample: the claim says `mergeOverrides` yields `override[key]`
whenever the key is present in the override record, but with template `{a}`,
base `{a: 1}` and override `{a: 0}` the key `a` is present in the override
(its value is `0`, not absent) and the result is nevertheless the base value
`1`, because `overrideObject` tests truthiness, not key membership. -/
theorem c2_counterexample_falsy_override_ignored :
    fieldVal (some fun k => if k = "a" then JVal.num 0 else JVal.undef) "a" ≠ JVal.undef ∧
    overrideObject ["a"] (fun _ => JVal.null)
      (some fun k => if k = "a" then JVal.num 1 else JVal.undef)
      (some fun k => if k = "a" then JVal.num 0 else JVal.undef) "a" = JVal.num 1 ∧
    JVal.num 1 ≠ JVal.num 0 := by
  refine ⟨by decide, ?_, by decide⟩
  decide

/-- C2 (amended): for every template key, `overrideObject` yields the
override value if it is truthy, else the base value if truthy, else the
template's initial value (the no-value `null` in every call site); keys of
base or override outside the template's key set never appear in the result.
In particular template `{a,b,c}` (initial values `null`), base `{a:1,b:2,d:5}`,
override `{b:9}` yields `{a:1, b:9, c:null}` with the unknown key `d`
dropped. -/
theorem c2_amended_overrideObject_merge :
    (∀ (templateKeys : List String) (template : String → JVal)
        (obj override : Option (String → JVal)) (k : String),
      overrideObject templateKeys template obj override k =
        if k ∈ templateKeys then
          (if truthyField override k then fieldVal override k
           else if truthyField obj k then fieldVal obj k
           else template k)
        else template k) ∧
    (overrideObject ["a", "b", "c"]
        (fun k => if k = "a" ∨ k = "b" ∨ k = "c" then JVal.null else JVal.undef)
        (some fun k => if k = "a" then JVal.num 1 else if k = "b" then JVal.num 2
                       else if k = "d" then JVal.num 5 else JVal.undef)
        (some fun k => if k = "b" then JVal.num 9 else JVal.undef) "a" = JVal.num 1 ∧
     overrideObject ["a", "b", "c"]
        (fun k => if k = "a" ∨ k = "b" ∨ k = "c" then JVal.null else JVal.undef)
        (some fun k => if k = "a" then JVal.num 1 else if k = "b" then JVal.num 2
                       else if k = "d" then JVal.num 5 else JVal.undef)
        (some fun k => if k = "b" then JVal.num 9 else JVal.undef) "b" = JVal.num 9 ∧
     overrideObject ["a", "b", "c"]
        (fun k => if k = "a" ∨ k = "b" ∨ k = "c" then JVal.null else JVal.undef)
        (some fun k => if k = "a" then JVal.num 1 else if k = "b" then JVal.num 2
                       else if k = "d" then JVal.num 5 else JVal.undef)
        (some fun k => if k = "b" then JVal.num 9 else JVal.undef) "c" = JVal.null ∧
     overrideObject ["a", "b", "c"]
        (fun k => if k = "a" ∨ k = "b" ∨ k = "c" then JVal.null else JVal.undef)
        (some fun k => if k = "a" then JVal.num 1 else if k = "b" then JVal.num 2
                       else if k = "d" then JVal.num 5 else JVal.undef)
        (some fun k => if k = "b" then JVal.num 9 else JVal.undef) "d" = JVal.undef) := by
  refine ⟨overrideObject_apply, by decide, by decide, by decide, by decide⟩

/-- C10: presence of a key in the merge is judged by truthiness, not key
membership: a template key whose override value is present but falsy
(`0`, `false`, `""` or `null`) falls through to the base value when that is
truthy, and otherwise to the template's initial no-value. -/
theorem c10_truthiness_merge (templateKeys : List String)
    (template : String → JVal) (obj override : Option (String → JVal))
    (k : String) (hmem : k ∈ templateKeys)
    (hpresent : fieldVal override k ≠ JVal.undef)
    (hfalsy : (fieldVal override k).truthy = false) :
    overrideObject templateKeys template obj override k =
      if truthyField obj k then fieldVal obj k else template k := by
  rw [overrideObject_apply]
  rw [truthyField_eq override k] at *
  simp [hmem, hfalsy]

/-- C10, witness: template `{p}` with initial `null`, base `{p: 7}`, override
`{p: 0}` — the override key is present and falsy, and the merge takes the
base value `7`. -/
theorem c10_witness :
    ("p" ∈ ["p"]) ∧
    fieldVal (some fun k => if k = "p" then JVal.num 0 else JVal.undef) "p" ≠ JVal.undef ∧
    (fieldVal (some fun k => if k = "p" then JVal.num 0 else JVal.undef) "p").truthy = false ∧
    overrideObject ["p"] (fun _ => JVal.null)
      (some fun k => if k = "p" then JVal.num 7 else JVal.undef)
      (some fun k => if k = "p" then JVal.num 0 else JVal.undef) "p" =
      (if truthyField (some fun k => if k = "p" then JVal.num 7 else JVal.undef) "p"
       then fieldVal (some fun k => if k = "p" then JVal.num 7 else JVal.undef) "p"
       else (fun _ => JVal.null) "p") :=
  ⟨by decide, by decide, by decide,
   c10_truthiness_merge ["p"] (fun _ => JVal.null)
     (some fun k => if k = "p" then JVal.num 7 else JVal.undef)
     (some fun k => if k = "p" then JVal.num 0 else JVal.undef) "p"
     (by decide) (by decide) (by decide)⟩

/-- C4: `isLoadBalancerPresent` returns `true` exactly when a single
load-balancer binding is present, `false` exactly when there are zero
bindings (including an absent `loadBalancers` key), and throws the
unsupported-topology error exactly when more than one binding is present —
so a boolean is never returned in that case. -/
theorem c4_isLoadBalancerPresent_spec (taskSet : TaskSetObj) :
    (isLoadBalancerPresent taskSet = .ok true ↔
      ∃ lbs, taskSet.loadBalancers = some lbs ∧ lbs.length = 1) ∧
    (isLoadBalancerPresent taskSet = .ok false ↔
      (taskSet.loadBalancers = none ∨ taskSet.loadBalancers = some [])) ∧
    (isLoadBalancerPresent taskSet = .error .unsupportedTopology ↔
      ∃ lbs, taskSet.loadBalancers = some lbs ∧ 1 < lbs.length) := by
  rcases h : taskSet.loadBalancers with _ | l
  · simp [isLoadBalancerPresent, h]
  · match l with
    | [] => simp [isLoadBalancerPresent, h]
    | [x] => simp [isLoadBalancerPresent, h]
    | x :: y :: rest =>
      simp only [isLoadBalancerPresent, h]
      refine ⟨?_, ?_, ?_⟩ <;>
        simp +arith [List.length_cons]

/-- C3: for every blue task set with a bound target group, blue-green
target-group resolution fails with the insufficient-target-groups error when
fewer than two names are supplied; otherwise it returns `{blue, green}` equal
as a set to the first two supplied names, with `blue` the name matching the
ARN suffix of blue's bound target group, and fails with the mismatch error
exactly when neither supplied name matches that suffix. -/
theorem c3_blue_green_target_group_resolution (targetGroupsString : Option String)
    (oldTaskSet : TaskSetObj) (lb : LoadBalancerCfg) (rest : List LoadBalancerCfg)
    (hlb : oldTaskSet.loadBalancers = some (lb :: rest)) :
    BlueGreenResolutionCorrect targetGroupsString oldTaskSet lb := by
  refine ⟨?_, ?_, ?_⟩
  · intro h
    subst h
    rfl
  · intro s hs hlen
    subst hs
    simp [getTargetGroupsWithBlueGreenEnabled, hlen]
  · intro s tg0 tg1 tgrest hs hsplit
    subst hs
    have hlen : ¬ (jsSplit s ',').length ≤ 1 := by
      rw [hsplit]
      simp
    by_cases hm1 : (jsSplit lb.targetGroupArn '/')[1]? = some tg1
    · refine ⟨?_, ?_, ?_⟩
      · intro r hr
        simp [getTargetGroupsWithBlueGreenEnabled, hlen, hlb, hsplit, hm1] at hr
        subst hr
        exact ⟨Or.inr ⟨rfl, rfl⟩, hm1⟩
      · intro h0 h1
        exact absurd hm1 h1
      · intro _
        exact ⟨{ green := tg0, blue := tg1 },
          by simp [getTargetGroupsWithBlueGreenEnabled, hlen, hlb, hsplit, hm1]⟩
    · by_cases hm0 : (jsSplit lb.targetGroupArn '/')[1]? = some tg0
      · have hne : tg0 ≠ tg1 := fun h => hm1 (hm0.trans (by rw [h]))
        refine ⟨?_, ?_, ?_⟩
        · intro r hr
          simp [getTargetGroupsWithBlueGreenEnabled, hlen, hlb, hsplit, hm0, hne] at hr
          subst hr
          exact ⟨Or.inl ⟨rfl, rfl⟩, hm0⟩
        · intro h0 h1
          exact absurd hm0 h0
        · intro _
          exact ⟨{ green := tg1, blue := tg0 },
            by simp [getTargetGroupsWithBlueGreenEnabled, hlen, hlb, hsplit, hm0, hne]⟩
      · refine ⟨?_, ?_, ?_⟩
        · intro r hr
          simp [getTargetGroupsWithBlueGreenEnabled, hlen, hlb, hsplit, hm1, hm0] at hr
        · intro _ _
          simp [getTargetGroupsWithBlueGreenEnabled, hlen, hlb, hsplit, hm1, hm0]
        · intro hcontra
          rcases hcontra with h | h
          · exact absurd h hm0
          · exact absurd h hm1

/-- C3, witness: a blue task set bound to `tg/blue-tg/x` with supplied names
`blue-tg,green-tg` satisfies the resolution specification; concretely the
call resolves `green-tg` as green and `blue-tg` as blue. -/
theorem c3_witness :
    ({ loadBalancers := some [{ targetGroupArn := "tg/blue-tg/x" }] } :
        TaskSetObj).loadBalancers = some [{ targetGroupArn := "tg/blue-tg/x" }] ∧
    BlueGreenResolutionCorrect (some "blue-tg,green-tg")
      { loadBalancers := some [{ targetGroupArn := "tg/blue-tg/x" }] }
      { targetGroupArn := "tg/blue-tg/x" } ∧
    getTargetGroupsWithBlueGreenEnabled (some "blue-tg,green-tg")
      { loadBalancers := some [{ targetGroupArn := "tg/blue-tg/x" }] } =
      .ok { green := "green-tg", blue := "blue-tg" } :=
  ⟨rfl,
   c3_blue_green_target_group_resolution (some "blue-tg,green-tg")
     { loadBalancers := some [{ targetGroupArn := "tg/blue-tg/x" }] }
     { targetGroupArn := "tg/blue-tg/x" } [] rfl,
   by rfl⟩

/-- C5: for every integer percent in `[0, 100]`, the split request carries
exactly two weighted forward entries — the green target group at weight
`percent` and the blue target group at weight `100 - percent`, summing to
100 — and at `percent = 0` or `percent = 100` traffic is effectively routed
to a single target. -/
theorem c5_divideListenerRule_weights (rule blue green : String) (percent : Int)
    (h0 : 0 ≤ percent) (h100 : percent ≤ 100) :
    DivideInRangeSpec rule blue green percent := by
  refine ⟨rfl, rfl, ?_, ?_, ?_, ?_⟩
  · simp [forwardTargetGroups, divideListenerRule]
  · intro a ha
    simp [divideListenerRule] at ha
    subst ha
    rfl
  · intro h
    subst h
    rfl
  · intro h
    subst h
    rfl

/-- C5, witness: the split at 30 percent carries weights 30 and 70. -/
theorem c5_witness :
    (0 : Int) ≤ 30 ∧ (30 : Int) ≤ 100 ∧
    DivideInRangeSpec "arn:rule" "arn:blue-tg" "arn:green-tg" 30 :=
  ⟨by decide, by decide,
   c5_divideListenerRule_weights "arn:rule" "arn:blue-tg" "arn:green-tg" 30
     (by decide) (by decide)⟩

/-- C6, counterexample: the claim says an out-of-range percent fails with a
caller validation error and does not modify the listener rule, but at
`percent = 150` the code raises no error and still builds the modify-rule
request, carrying the unclamped weights 150 and -50. -/
theorem c6_counterexample_out_of_range_not_rejected :
    divideListenerRule "arn:rule" "arn:blue-tg" "arn:green-tg" 150 =
      { Actions := [
          { typ := "forward",
            ForwardConfig := some { TargetGroups := [
              { TargetGroupArn := "arn:green-tg", Weight := 150 },
              { TargetGroupArn := "arn:blue-tg", Weight := -50 } ] } } ],
        RuleArn := "arn:rule" } := by
  decide

/-- C6 (amended): percent values outside `[0, 100]` are neither validated
nor clamped: the modify-rule request is still issued against the rule, the
green and blue weights are `percent` and `100 - percent` verbatim, and some
weight lies outside `[0, 100]`. -/
theorem c6_amended_no_validation_no_clamp (rule blue green : String) (percent : Int)
    (h : percent < 0 ∨ 100 < percent) :
    UnvalidatedSplitSpec rule blue green percent := by
  refine ⟨rfl, rfl, ?_⟩
  intro hall
  have hg := hall { TargetGroupArn := green, Weight := percent }
    (by simp [forwardTargetGroups, divideListenerRule])
  simp only at hg
  rcases h with h | h <;> omega

/-- C6, witness: 150 is out of range and flows through unvalidated. -/
theorem c6_witness :
    ((150 : Int) < 0 ∨ (100 : Int) < 150) ∧
    UnvalidatedSplitSpec "arn:rule2" "arn:blue-tg2" "arn:green-tg2" 150 :=
  ⟨by decide,
   c6_amended_no_validation_no_clamp "arn:rule2" "arn:blue-tg2" "arn:green-tg2" 150
     (by decide)⟩

end Vulcan

namespace Vulcan.Rollback

/-- C1, counterexample: the claim says that when rollback fails with the
missing-blue-target-group error the green task set has not been deleted, but
on a state record carrying `greenTaskSetArn = arn:green-ts` the handler
issues the `deleteTaskSet` call first and only then raises the fatal error. -/
theorem c1_counterexample_green_deleted_before_failure :
    rollbackHandler rollbackArgvNoBlue =
      ([RbCall.deleteTaskSet "svc" "clu" "arn:green-ts"],
       .error .missingBlueTargetGroup) ∧
    RbCall.deleteTaskSet "svc" "clu" "arn:green-ts" ∈
      (rollbackHandler rollbackArgvNoBlue).1 := by
  refine ⟨by rfl, ?_⟩
  simp [rollbackHandler, rollbackArgvNoBlue, isStringNull]

/-- C1 (amended): on every state record with `isLoadBalancerPresent = true`,
`isInitialDeployment = false` and a null `blueTargetGroupArn`, rollback fails
with the missing-blue-target-group error, but the green task-set deletion is
not withheld: the `deleteTaskSet` call has already run whenever
`greenTaskSetArn` is non-null, and only a null `greenTaskSetArn` makes the
run free of `deleteTaskSet` calls. -/
theorem c1_amended_rollback_missing_blue_target_group (argv : RollbackArgv)
    (hlb : argv.isLoadBalancerPresent = true)
    (hinit : argv.isInitialDeployment = false)
    (hblue : isStringNull argv.blueTargetGroupArn = true) :
    RollbackMissingBlueBehavior argv := by
  refine ⟨?_, ?_, ?_⟩
  · simp [rollbackHandler, hlb, hinit, hblue]
  · intro hg
    simp [rollbackHandler, hlb, hinit, hblue, hg]
  · intro hg s c a
    by_cases hd : isStringNull argv.greenTaskDefinitionArn = true <;>
      simp [rollbackHandler, hlb, hinit, hblue, hg, hd]

/-- C1, witness: the amended behaviour at the concrete failed-deployment
state record with a recorded green task set. -/
theorem c1_amended_witness :
    rollbackArgvNoBlue.isLoadBalancerPresent = true ∧
    rollbackArgvNoBlue.isInitialDeployment = false ∧
    isStringNull rollbackArgvNoBlue.blueTargetGroupArn = true ∧
    RollbackMissingBlueBehavior rollbackArgvNoBlue :=
  ⟨rfl, rfl, rfl,
   c1_amended_rollback_missing_blue_target_group rollbackArgvNoBlue rfl rfl rfl⟩

/-- C9: at the rollback interface an ARN that is absent, empty or the literal
string `"null"` is exactly what `isStringNull` classifies as null, and the
handler issues a `deleteTaskSet` call if and only if `greenTaskSetArn` is not
null in that sense, and a `deregisterTaskDefinition` call if and only if
`greenTaskDefinitionArn` is not null in that sense — so the `"null"` sentinel
suppresses both cleanup calls. -/
theorem c9_null_sentinel_skips_cleanup (argv : RollbackArgv) :
    (isStringNull argv.greenTaskSetArn = true ↔
      (argv.greenTaskSetArn = none ∨ argv.greenTaskSetArn = some "" ∨
       argv.greenTaskSetArn = some "null")) ∧
    ((∃ s c a, RbCall.deleteTaskSet s c a ∈ (rollbackHandler argv).1) ↔
      isStringNull argv.greenTaskSetArn = false) ∧
    ((∃ a, RbCall.deregisterTaskDefinition a ∈ (rollbackHandler argv).1) ↔
      isStringNull argv.greenTaskDefinitionArn = false) := by
  refine ⟨?_, ?_, ?_⟩
  · rcases hg : argv.greenTaskSetArn with _ | s
    · simp [isStringNull]
    · by_cases h1 : s = ""
      · simp [isStringNull, h1]
      · by_cases h2 : s = "null"
        · simp [isStringNull, h1, h2]
        · simp [isStringNull, h1, h2]
  · by_cases hg : isStringNull argv.greenTaskSetArn = true <;>
    by_cases hd : isStringNull argv.greenTaskDefinitionArn = true <;>
    by_cases hl : (argv.isLoadBalancerPresent && !argv.isInitialDeployment) = true <;>
    by_cases hb : isStringNull argv.blueTargetGroupArn = true <;>
      simp [rollbackHandler, hg, hd, hl, hb]
  · by_cases hg : isStringNull argv.greenTaskSetArn = true <;>
    by_cases hd : isStringNull argv.greenTaskDefinitionArn = true <;>
    by_cases hl : (argv.isLoadBalancerPresent && !argv.isInitialDeployment) = true <;>
    by_cases hb : isStringNull argv.blueTargetGroupArn = true <;>
      simp [rollbackHandler, hg, hd, hl, hb]

end Vulcan.Rollback

namespace Vulcan.Deploy

/-- C7 (code bug): in a blue-green deploy where registration and task-set
creation succeed and the subsequent listener-rule modification fails, the
state record written on the failure path records the registered task
definition but not the created task set: the run completed
`createTaskSet` (returning `arn:green-ts`), yet the written record has
`greenTaskSetArn = none` while `greenTaskDefinitionArn` is set, and the
original listener error is re-raised — contradicting the claim that
`greenTaskSetArn` is set if and only if task-set creation succeeded. -/
theorem c7_code_bug_green_task_set_arn_lost :
    (deployHandler deployWorldListenerFails deployArgvBlueGreen).1 =
      [DeployCall.describeTaskSet "arn:blue-ts",
       DeployCall.registerTaskDefinition "arn:green-td",
       DeployCall.createTaskSet "arn:green-ts",
       DeployCall.writeJSON "state.json"
         { isInitialDeployment := false,
           blueTaskSetArn := some "arn:blue-ts",
           greenTaskDefinitionArn := some "arn:green-td" }] ∧
    DeployCall.createTaskSet "arn:green-ts" ∈
      (deployHandler deployWorldListenerFails deployArgvBlueGreen).1 ∧
    (deployHandler deployWorldListenerFails deployArgvBlueGreen).2.1.greenTaskSetArn =
      none ∧
    (deployHandler deployWorldListenerFails deployArgvBlueGreen).2.1.greenTaskDefinitionArn =
      some "arn:green-td" ∧
    (deployHandler deployWorldListenerFails deployArgvBlueGreen).2.2 =
      .error (.external "listener failure") := by
  refine ⟨by rfl, by decide, by rfl, by rfl, by rfl⟩

end Vulcan.Deploy

namespace Vulcan.Bootstrap

/-- C8 (code bug): with a single non-PRIMARY task set the bootstrap switch
does designate it PRIMARY through `updateServicePrimaryTaskSet`, but leaves
its local blue task set unbound (`none`) while marking blue as present, so
the next step that should proceed with it as blue instead dereferences
`null` (a `TypeError`); with more than one non-PRIMARY task set the switch
fails with the ambiguous-primary error and never selects one. -/
theorem c8_code_bug_promoted_blue_unbound :
    bootstrapBlueSwitch "svc" "clu" [{ taskSetArn := "arn:ts1", status := "ACTIVE" }] =
      ([BootCall.updateServicePrimaryTaskSet "svc" "clu" "arn:ts1"],
       .ok (true, none)) ∧
    bootstrapGreenTaskDefinition (fun _ => .error (.external "unused"))
      (fun _ => .ok { containerDefinitions := [{ name := "app", image := "img" }] })
      none true none = .error .nullDeref ∧
    bootstrapBlueSwitch "svc" "clu"
      [{ taskSetArn := "arn:ts1", status := "ACTIVE" },
       { taskSetArn := "arn:ts2", status := "ACTIVE" }] =
      ([], .error .ambiguousPrimaryTaskSet) := by
  refine ⟨by rfl, by rfl, by rfl⟩

end Vulcan.Bootstrap
